import Mathlib

/-!
Shallow embedding of the prompt-orchestration layer of the
resume-assistant repository.

Python floats are modelled as rationals (ℚ); the numbers involved
(confidence thresholds, scores 0-10, percentages 0-100, fixed boosts)
are small and only compared, added and clamped, so the embedding is
exact on the claimed domain.  An LLM backend call is modelled as an
explicit function argument returning `Except String α`: `Except.ok`
is a response parsed into the target schema, `Except.error` is any
raised exception (network error, parse error, timeout).  A Python
function without a try/except around its backend call propagates the
`Except.error`; one with a try/except pattern-matches on it.
-/

/-- Schema `ComparisonExtract` (datamodels/models.py): validity-gate decision. -/
structure ComparisonExtract where
  is_valid : Bool
  confidence : ℚ
  rationale : String
deriving Repr, DecidableEq

/-- Schema `WorkflowReqs` (datamodels/models.py): extracted workflow intent. -/
structure WorkflowReqs where
  score_resume : Bool
  score_confidence : ℚ
  predict_success : Bool
  predict_confidence : ℚ
  suggest_edits : Bool
  edit_confidence : ℚ
  rationale : String
deriving Repr, DecidableEq

/-- Schema `JDScore` (datamodels/models.py): fit score plus explanation. -/
structure JDScore where
  score : ℚ
  explanation : String
deriving Repr, DecidableEq

/-- Schema `ResumeSuggestions` (datamodels/models.py): edit suggestions text. -/
structure ResumeSuggestions where
  suggestions : String
deriving Repr, DecidableEq

/-- Schema `JobInfo` (datamodels/models.py): one job posting with its evaluation. -/
structure JobInfo where
  description : String
  resume : String
  score : ℚ
  explanation : String
deriving Repr, DecidableEq

namespace app_success_prediction

/-- The `tailoring_boost_points` dict of
`src/app/scoring/success_prediction.py`; `none` models a key that is
absent from the dict. -/
def tailoring_boost_points (tailoring_level : String) : Option ℚ :=
  if tailoring_level = "Exceptional" then some 10
  else if tailoring_level = "Very Well" then some 7
  else if tailoring_level = "Well" then some 4
  else if tailoring_level = "Moderate" then some 1
  else if tailoring_level = "Generic" then some (-5)
  else none

/-- Function `calculate_overall_fit_and_tailoring_score` of
`src/app/scoring/success_prediction.py`: `dict.get(level, 0)` is
`(tailoring_boost_points level).getD 0`, then clamp with
`max(0, min(initial_score, 100))`. -/
def calculate_overall_fit_and_tailoring_score
    (raw_fit_percentage : ℚ) (tailoring_level : String) : ℚ :=
  let initial_score :=
    raw_fit_percentage + (tailoring_boost_points tailoring_level).getD 0
  max 0 (min initial_score 100)

/-- Function `calculate_time_decay` of `src/app/scoring/success_prediction.py`. -/
def calculate_time_decay (days_since_posted : ℤ) : ℚ :=
  if days_since_posted ≤ 14 then 1
  else if days_since_posted ≤ 28 then 8/10
  else if days_since_posted ≤ 56 then 5/10
  else if days_since_posted ≤ 84 then 2/10
  else 1/10

/-- Function `calculate_interview_chance` of
`src/app/scoring/success_prediction.py` without the final rounding to
two decimals (the values compared in the spec are exact, so rounding
is the identity on them). -/
def calculate_interview_chance
    (raw_fit_percentage : ℚ) (tailoring_level : String) (days_since_posted : ℤ) : ℚ :=
  calculate_overall_fit_and_tailoring_score raw_fit_percentage tailoring_level / 100
    * calculate_time_decay days_since_posted * 100

end app_success_prediction

namespace scoring_success_prediction

/-- The `tailoring_boost_points` dict of
`src/scoring/success_prediction.py` (same five entries). -/
def tailoring_boost_points (tailoring_level : String) : Option ℚ :=
  if tailoring_level = "Exceptional" then some 10
  else if tailoring_level = "Very Well" then some 7
  else if tailoring_level = "Well" then some 4
  else if tailoring_level = "Moderate" then some 1
  else if tailoring_level = "Generic" then some (-5)
  else none

/-- Function `calculate_overall_fit_and_tailoring_score` of
`src/scoring/success_prediction.py`: this variant raises `ValueError`
when `raw_fit_percentage` is out of `[0,100]` or the level is unknown
(modelled as `Except.error`; the Python messages interpolate the
offending value, elided here since no property depends on them). -/
def calculate_overall_fit_and_tailoring_score
    (raw_fit_percentage : ℚ) (tailoring_level : String) : Except String ℚ :=
  if ¬ (0 ≤ raw_fit_percentage ∧ raw_fit_percentage ≤ 100) then
    Except.error "raw_fit_percentage must be between 0 and 100."
  else
    match tailoring_boost_points tailoring_level with
    | none => Except.error "Invalid tailoring_level"
    | some boost => Except.ok (max 0 (min (raw_fit_percentage + boost) 100))

/-- Function `calculate_time_decay_factor` of `src/scoring/success_prediction.py`:
the body is `return 1`, ignoring its argument, although its own
docstring describes the 1.0/0.8/0.5/0.2/0.1 step function. -/
def calculate_time_decay_factor (_date_posted : ℤ) : ℚ :=
  1

end scoring_success_prediction

/-- One chat-completion request as assembled by a backend function:
the system prompt, the user prompt and the sampling temperature. -/
structure ChatRequest where
  system_prompt : String
  user_prompt : String
  temperature : ℚ
deriving Repr, DecidableEq

/-- In Python, `sep.join(s)` on a STRING `s` iterates its characters:
each single character becomes one joined element. -/
def charJoin (sep s : String) : String :=
  String.intercalate sep (s.toList.map Char.toString)

namespace oa_models

/-- Function `check_request` of `src/scoring/oa_models.py`: a single
schema-constrained backend call with NO try/except, so any exception
from the client propagates to the caller. -/
def check_request (backend : String → Except String ComparisonExtract)
    (prompt : String) : Except String ComparisonExtract :=
  backend prompt

/-- Function `extract_reqs` of `src/scoring/oa_models.py`: a single
schema-constrained backend call with NO try/except. -/
def extract_reqs (backend : String → Except String WorkflowReqs)
    (prompt : String) : Except String WorkflowReqs :=
  backend prompt

/-- The user prompt built by `score_resume` in
`src/scoring/oa_models.py` (resume and job description embedded
verbatim between `---` markers). -/
def score_user_prompt (resume_text job_description : String) : String :=
  "Resume:\n---\n" ++ resume_text ++ "\n---\n\n" ++
  "Job Description:\n---\n" ++ job_description ++ "\n---\n\n" ++
  "Score this resume against the job description (0-10):"

/-- Function `score_resume` of `src/scoring/oa_models.py`: the backend call is
wrapped in try/except; on any exception the sentinel
`JDScore(score=-1, explanation="Comparison failed")` is returned. -/
def score_resume (backend : String → Except String JDScore)
    (resume_text job_description : String) : JDScore :=
  match backend (score_user_prompt resume_text job_description) with
  | Except.ok result => result
  | Except.error _ => ⟨-1, "Comparison failed"⟩

/-- The user prompt built by `summarize_gaps` in
`src/scoring/oa_models.py`.  The body first rebinds
`explanation = f"Rationale: {explanation}"` and then interpolates
the separator join of `explanation`: a join over a string, i.e. over its
characters. -/
def summarize_gaps_user_prompt (explanation : String) : String :=
  "Analyze the following rationale to identify missing skills or experiences:\n" ++
  charJoin "\n--\n" ("Rationale: " ++ explanation) ++ "\n--\n\n" ++
  "List the identified gaps:"

/-- The full chat request submitted by `summarize_gaps` in
`src/scoring/oa_models.py` (system prompt abbreviated to its first
clause; the call passes `temperature=0.0`). -/
def summarize_gaps_request (explanation : String) : ChatRequest :=
  ⟨"You are an expert at identifying and articulating missing skills and experiences.",
   summarize_gaps_user_prompt explanation, 0⟩

/-- Function `summarize_gaps` of `src/scoring/oa_models.py`: free-text
completion wrapped in try/except; on exception `e` it returns
`f"Unable to analyze gaps: {e}"`. -/
def summarize_gaps (backend : ChatRequest → Except String String)
    (explanation : String) : String :=
  match backend (summarize_gaps_request explanation) with
  | Except.ok result => result
  | Except.error e => "Unable to analyze gaps: " ++ e

/-- The user prompt built by `suggest_edits` in
`src/scoring/oa_models.py`: the gaps block is appended only when
`gaps` is truthy (non-`None` and non-empty). -/
def suggest_user_prompt (resume_text job_description : String)
    (gaps : Option String) : String :=
  let base :=
    "Provide edit suggestions for my resume:" ++
    "Resume:\n---\n" ++ resume_text ++ "\n---\n\n" ++
    "Job Description:\n---\n" ++ job_description ++ "\n---\n\n"
  match gaps with
  | none => base
  | some g =>
    if g = "" then base
    else base ++ "A separate analysis indicated these gaps: \n---\n" ++ g ++ "\n---\n\n"

/-- A Python function annotated `-> ResumeSuggestions` can still
return any object; this sum captures the two value shapes
`suggest_edits` in `src/scoring/oa_models.py` actually produces. -/
inductive SuggestResult where
  | asSuggestions (r : ResumeSuggestions)
  | asJDScore (j : JDScore)
deriving Repr, DecidableEq

/-- Discriminator: whether a `SuggestResult` value is of the declared
`ResumeSuggestions` schema type. -/
def SuggestResult.isSuggestions : SuggestResult → Bool
  | SuggestResult.asSuggestions _ => true
  | SuggestResult.asJDScore _ => false

/-- Function `suggest_edits` of `src/scoring/oa_models.py`: on success the
parsed `ResumeSuggestions`; on exception the except-branch builds
`JDScore(score=-1, explanation="Comparison failed")` — a value of the
wrong schema type. -/
def suggest_edits (backend : String → Except String ResumeSuggestions)
    (resume_text job_description : String) (gaps : Option String) : SuggestResult :=
  match backend (suggest_user_prompt resume_text job_description gaps) with
  | Except.ok result => SuggestResult.asSuggestions result
  | Except.error _ => SuggestResult.asJDScore ⟨-1, "Comparison failed"⟩

end oa_models

namespace ollama_models

/-- Function `check_request` of `src/scoring/ollama_models.py`: a hard-coded
pass-through value, no model call at all. -/
def check_request (_prompt : String) : ComparisonExtract :=
  ⟨true, 9/10, "PassThrough Value"⟩

/-- Function `extract_reqs` of `src/scoring/ollama_models.py`: a single
schema-constrained backend call with NO try/except. -/
def extract_reqs (backend : String → Except String WorkflowReqs)
    (prompt : String) : Except String WorkflowReqs :=
  backend prompt

/-- The user prompt built by `score_resume` in
`src/scoring/ollama_models.py` (ends with a period, unlike the
colon used by the openai variant). -/
def score_user_prompt (resume_text job_description : String) : String :=
  "Resume:\n---\n" ++ resume_text ++ "\n---\n\n" ++
  "Job Description:\n---\n" ++ job_description ++ "\n---\n\n" ++
  "Score this resume against the job description (0-10)."

/-- Function `score_resume` of `src/scoring/ollama_models.py`: try/except
around the chat call and JSON validation; on any exception the
sentinel `JDScore(score=-1, explanation="Comparison failed")`. -/
def score_resume (backend : String → Except String JDScore)
    (resume_text job_description : String) : JDScore :=
  match backend (score_user_prompt resume_text job_description) with
  | Except.ok result => result
  | Except.error _ => ⟨-1, "Comparison failed"⟩

end ollama_models

namespace app_oa_models

/-- Function `check_request` of `src/app/scoring/oa_models.py`: the
schema-constrained call is wrapped in try/except; on exception `e` it
returns the sentinel
`ComparisonExtract(is_valid=False, confidence=0.0, rationale=f"Validity check failed: {e}")`. -/
def check_request (backend : String → Except String ComparisonExtract)
    (prompt : String) : ComparisonExtract :=
  match backend prompt with
  | Except.ok result => result
  | Except.error e => ⟨false, 0, "Validity check failed: " ++ e⟩

/-- Function `extract_reqs` of `src/app/scoring/oa_models.py`: try/except; on
exception `e` the all-false sentinel `WorkflowReqs` with rationale
`f"Failed to extract variables: {e}"`. -/
def extract_reqs (backend : String → Except String WorkflowReqs)
    (prompt : String) : WorkflowReqs :=
  match backend prompt with
  | Except.ok result => result
  | Except.error e => ⟨false, 0, false, 0, false, 0, "Failed to extract variables: " ++ e⟩

/-- The user prompt built by `score_resume` in
`src/app/scoring/oa_models.py` (same text as the `src/scoring` openai
variant). -/
def score_user_prompt (resume_text job_description : String) : String :=
  "Resume:\n---\n" ++ resume_text ++ "\n---\n\n" ++
  "Job Description:\n---\n" ++ job_description ++ "\n---\n\n" ++
  "Score this resume against the job description (0-10):"

/-- Function `score_resume` of `src/app/scoring/oa_models.py`: try/except; on
exception the sentinel `JDScore(score=-1, explanation="Comparison failed")`. -/
def score_resume (backend : String → Except String JDScore)
    (resume_text job_description : String) : JDScore :=
  match backend (score_user_prompt resume_text job_description) with
  | Except.ok result => result
  | Except.error _ => ⟨-1, "Comparison failed"⟩

/-- The user prompt built by `summarize_gaps` in
`src/app/scoring/oa_models.py`: same rebinding
`explanation = f"Rationale: {explanation}"` and same per-character
join as the `src/scoring` variant (the system prompt is looked up
from the external YAML prompt catalog and is not modelled). -/
def summarize_gaps_user_prompt (explanation : String) : String :=
  "Analyze the following rationale to identify missing skills or experiences:\n" ++
  charJoin "\n--\n" ("Rationale: " ++ explanation) ++ "\n--\n\n" ++
  "List the identified gaps:"

/-- Function `summarize_gaps` of `src/app/scoring/oa_models.py`:
free-text completion at temperature 0 wrapped in try/except; on
exception `e` it returns `f"Unable to analyze gaps: {e}"`. -/
def summarize_gaps (backend : String → Except String String)
    (explanation : String) : String :=
  match backend (summarize_gaps_user_prompt explanation) with
  | Except.ok result => result
  | Except.error e => "Unable to analyze gaps: " ++ e

/-- Function `suggest_edits` of `src/app/scoring/oa_models.py`: unlike the
`src/scoring` openai variant, its except-branch returns
`ResumeSuggestions(suggestions="Comparison failed")` — the declared
schema type. -/
def suggest_edits (backend : String → Except String ResumeSuggestions)
    (resume_text job_description : String) (gaps : Option String) : ResumeSuggestions :=
  match backend (oa_models.suggest_user_prompt resume_text job_description gaps) with
  | Except.ok result => result
  | Except.error _ => ⟨"Comparison failed"⟩

end app_oa_models

namespace prompt_extraction

/-- Outcome of `check_and_extract` in
`src/scoring/prompt_extraction.py`: the `exit(1)` on a failed gate
check is modelled as the terminal `rejected` outcome. -/
inductive GateResult where
  | rejected
  | accepted (reqs : WorkflowReqs)
deriving Repr, DecidableEq

/-- Function `check_and_extract` of `src/scoring/prompt_extraction.py`:
`if not c.is_valid or c.confidence < 0.7: exit(1)` else
`return extract_reqs(prompt)`.  The two backend capabilities are the
explicit arguments `check` and `extract`. -/
def check_and_extract (check : String → ComparisonExtract)
    (extract : String → WorkflowReqs) (prompt : String) : GateResult :=
  let c := check prompt
  if c.is_valid = false ∨ c.confidence < 7/10 then GateResult.rejected
  else GateResult.accepted (extract prompt)

end prompt_extraction

namespace job_posts

/-- The list comprehension filter in `identify_resume_gaps`
(`src/scoring/job_posts.py` line 49): keep records with
`x.score > score_threshold`. -/
def gap_filter (scores : List JobInfo) (score_threshold : ℚ) : List JobInfo :=
  scores.filter (fun x => score_threshold < x.score)

/-- Function `identify_resume_gaps` of `src/scoring/job_posts.py`: the kept
explanations of the kept records go to `summarize_gaps` (the `summarize`
argument); when none pass the filter, a fixed message is returned and
the backend is never invoked. -/
def identify_resume_gaps (summarize : List String → String)
    (scores : List JobInfo) (score_threshold : ℚ) : String :=
  let explanations := (gap_filter scores score_threshold).map (fun x => x.explanation)
  if explanations.length = 0 then
    "Unable to conduct gap analysis, no jobs scored above " ++ toString score_threshold
  else
    summarize explanations

end job_posts

namespace backend_contract

/-- The capability set of the Backend Client contract (spec §4.2):
validate_prompt = `check_request`, extract_intent = `extract_reqs`,
score = `score_resume`, plus `summarize_gaps` and `suggest_edits`. -/
inductive Capability where
  | validate_prompt
  | extract_intent
  | score
  | summarize_gaps
  | suggest_edits
deriving Repr, DecidableEq

/-- The response shapes a capability can produce (Schema Registry
types plus raw free text). -/
inductive Schema where
  | comparisonExtract
  | workflowReqs
  | jdScore
  | freeText
  | resumeSuggestions
deriving Repr, DecidableEq

/-- Which capabilities `src/scoring/oa_models.py` defines:
`check_request`, `extract_reqs`, `score_resume`, `summarize_gaps`,
`suggest_edits` — all five. -/
def oa_implements (_c : Capability) : Bool :=
  true

/-- Which capabilities `src/scoring/ollama_models.py` defines: only
`check_request`, `extract_reqs` and `score_resume` (the module has no
`summarize_gaps` or `suggest_edits`, although
`src/scoring/job_posts.py` imports `summarize_gaps` from it). -/
def ollama_implements : Capability → Bool
  | Capability.validate_prompt => true
  | Capability.extract_intent => true
  | Capability.score => true
  | Capability.summarize_gaps => false
  | Capability.suggest_edits => false

/-- Input schemas of each openai capability
(`src/scoring/oa_models.py` signatures): all parameters are plain
text; score and suggest take two texts, suggest adds optional gaps. -/
def oa_input_schema : Capability → Option (List Schema)
  | Capability.validate_prompt => some [Schema.freeText]
  | Capability.extract_intent => some [Schema.freeText]
  | Capability.score => some [Schema.freeText, Schema.freeText]
  | Capability.summarize_gaps => some [Schema.freeText]
  | Capability.suggest_edits => some [Schema.freeText, Schema.freeText, Schema.freeText]

/-- Output schema of each openai capability per its annotation
(`src/scoring/oa_models.py`). -/
def oa_output_schema : Capability → Option Schema
  | Capability.validate_prompt => some Schema.comparisonExtract
  | Capability.extract_intent => some Schema.workflowReqs
  | Capability.score => some Schema.jdScore
  | Capability.summarize_gaps => some Schema.freeText
  | Capability.suggest_edits => some Schema.resumeSuggestions

/-- Input schemas of each ollama capability
(`src/scoring/ollama_models.py` signatures); `none` for the
capabilities the module does not define. -/
def ollama_input_schema : Capability → Option (List Schema)
  | Capability.validate_prompt => some [Schema.freeText]
  | Capability.extract_intent => some [Schema.freeText]
  | Capability.score => some [Schema.freeText, Schema.freeText]
  | Capability.summarize_gaps => none
  | Capability.suggest_edits => none

/-- Output schema of each ollama capability per its annotation
(`src/scoring/ollama_models.py`); `none` for missing capabilities. -/
def ollama_output_schema : Capability → Option Schema
  | Capability.validate_prompt => some Schema.comparisonExtract
  | Capability.extract_intent => some Schema.workflowReqs
  | Capability.score => some Schema.jdScore
  | Capability.summarize_gaps => none
  | Capability.suggest_edits => none

end backend_contract

/-- C1: whenever the Backend Client call inside `score_resume` fails
(in any of the three variants: `src/scoring/oa_models.py`,
`src/scoring/ollama_models.py`, `src/app/scoring/oa_models.py`), the
operation returns `FitScore(score=-1, explanation="Comparison failed")`
instead of propagating the exception; totality of the Lean functions
witnesses that no exception escapes. -/
theorem c1_score_failure_sentinel
    (oa_backend ollama_backend app_backend : String → Except String JDScore)
    (resume_text job_description e₁ e₂ e₃ : String)
    (h₁ : oa_backend (oa_models.score_user_prompt resume_text job_description)
      = Except.error e₁)
    (h₂ : ollama_backend (ollama_models.score_user_prompt resume_text job_description)
      = Except.error e₂)
    (h₃ : app_backend (app_oa_models.score_user_prompt resume_text job_description)
      = Except.error e₃) :
    oa_models.score_resume oa_backend resume_text job_description
      = ⟨-1, "Comparison failed"⟩
    ∧ ollama_models.score_resume ollama_backend resume_text job_description
      = ⟨-1, "Comparison failed"⟩
    ∧ app_oa_models.score_resume app_backend resume_text job_description
      = ⟨-1, "Comparison failed"⟩ := by
  refine ⟨?_, ?_, ?_⟩
  · simp [oa_models.score_resume, h₁]
  · simp [ollama_models.score_resume, h₂]
  · simp [app_oa_models.score_resume, h₃]

/-- Witness for C1: concrete failing backends produce the sentinel. -/
theorem c1_score_failure_sentinel_witness :
    oa_models.score_resume (fun _ => Except.error "network error") "my resume" "the job"
      = ⟨-1, "Comparison failed"⟩
    ∧ ollama_models.score_resume (fun _ => Except.error "parse error") "my resume" "the job"
      = ⟨-1, "Comparison failed"⟩
    ∧ app_oa_models.score_resume (fun _ => Except.error "timeout") "my resume" "the job"
      = ⟨-1, "Comparison failed"⟩ :=
  c1_score_failure_sentinel (fun _ => Except.error "network error")
    (fun _ => Except.error "parse error") (fun _ => Except.error "timeout")
    "my resume" "the job" "network error" "parse error" "timeout" rfl rfl rfl

/-- C2: `check_and_extract` rejects exactly when the validity check
has `is_valid = false` or `confidence < 0.7`; otherwise it calls the
intent-extraction capability on the same prompt and returns its
result.  The last three conjuncts are the boundary cases of the
claim: `is_valid=False` with confidence 0.95 is rejected,
`is_valid=True` with confidence 0.69 is rejected, and confidence
exactly 0.7 with `is_valid=True` passes. -/
theorem c2_gate_reject_iff
    (check : String → ComparisonExtract) (extract : String → WorkflowReqs)
    (prompt : String) :
    (prompt_extraction.check_and_extract check extract prompt
        = prompt_extraction.GateResult.rejected
      ↔ (check prompt).is_valid = false ∨ (check prompt).confidence < 7/10)
    ∧ ((check prompt).is_valid = true → 7/10 ≤ (check prompt).confidence →
        prompt_extraction.check_and_extract check extract prompt
          = prompt_extraction.GateResult.accepted (extract prompt))
    ∧ prompt_extraction.check_and_extract (fun _ => ⟨false, 19/20, "r"⟩) extract prompt
        = prompt_extraction.GateResult.rejected
    ∧ prompt_extraction.check_and_extract (fun _ => ⟨true, 69/100, "r"⟩) extract prompt
        = prompt_extraction.GateResult.rejected
    ∧ prompt_extraction.check_and_extract (fun _ => ⟨true, 7/10, "r"⟩) extract prompt
        = prompt_extraction.GateResult.accepted (extract prompt) := by
  refine ⟨?_, ?_, ?_, ?_, ?_⟩
  · by_cases h : (check prompt).is_valid = false ∨ (check prompt).confidence < 7/10
    · simp [prompt_extraction.check_and_extract, h]
    · simp [prompt_extraction.check_and_extract, h]
  · intro hv hc
    have h : ¬ ((check prompt).is_valid = false ∨ (check prompt).confidence < 7/10) := by
      rw [not_or]
      exact ⟨by simp [hv], not_lt.mpr hc⟩
    simp [prompt_extraction.check_and_extract, h]
  · simp [prompt_extraction.check_and_extract]
  · norm_num [prompt_extraction.check_and_extract]
  · norm_num [prompt_extraction.check_and_extract]

/-- Witness for C2: a validity check at exactly the 0.7 boundary
passes the gate, and the extracted intent is returned. -/
theorem c2_gate_reject_iff_witness :
    prompt_extraction.check_and_extract (fun _ => ⟨true, 7/10, "in domain"⟩)
        (fun _ => ⟨true, 1, false, 0, false, 0, "wants a score"⟩) "compare my resume"
      = prompt_extraction.GateResult.accepted ⟨true, 1, false, 0, false, 0, "wants a score"⟩ :=
  (c2_gate_reject_iff (fun _ => ⟨true, 7/10, "in domain"⟩)
    (fun _ => ⟨true, 1, false, 0, false, 0, "wants a score"⟩) "compare my resume").2.1
    rfl (by norm_num)

/-- C3 counterexample: `check_request` in `src/scoring/oa_models.py`
has no exception handling, so a failing backend call is propagated
(the operation does not return a value of its declared result type). -/
theorem c3_counterexample_unhandled_backend_failure :
    ¬ ∃ v, oa_models.check_request (fun _ => Except.error "timeout") "compare my resume"
      = Except.ok v := by
  intro ⟨v, hv⟩
  simp [oa_models.check_request] at hv

/-- C3 amended: the operations with a try/except
(`score_resume`, `summarize_gaps` and `suggest_edits` in
`src/scoring/oa_models.py`, `score_resume` in
`src/scoring/ollama_models.py`, and all of the
`src/app/scoring/oa_models.py` operations) contain any backend
failure and return a sentinel of their result type, but
`check_request` and `extract_reqs` in `src/scoring/oa_models.py`
and `extract_reqs` in `src/scoring/ollama_models.py` propagate the
backend exception past their boundary. -/
theorem c3_amended_failure_containment
    (e resume_text job_description prompt explanation : String) :
    oa_models.score_resume (fun _ => Except.error e) resume_text job_description
      = ⟨-1, "Comparison failed"⟩
    ∧ oa_models.summarize_gaps (fun _ => Except.error e) explanation
      = "Unable to analyze gaps: " ++ e
    ∧ oa_models.suggest_edits (fun _ => Except.error e) resume_text job_description none
      = oa_models.SuggestResult.asJDScore ⟨-1, "Comparison failed"⟩
    ∧ ollama_models.score_resume (fun _ => Except.error e) resume_text job_description
      = ⟨-1, "Comparison failed"⟩
    ∧ app_oa_models.check_request (fun _ => Except.error e) prompt
      = ⟨false, 0, "Validity check failed: " ++ e⟩
    ∧ app_oa_models.extract_reqs (fun _ => Except.error e) prompt
      = ⟨false, 0, false, 0, false, 0, "Failed to extract variables: " ++ e⟩
    ∧ app_oa_models.score_resume (fun _ => Except.error e) resume_text job_description
      = ⟨-1, "Comparison failed"⟩
    ∧ app_oa_models.summarize_gaps (fun _ => Except.error e) explanation
      = "Unable to analyze gaps: " ++ e
    ∧ app_oa_models.suggest_edits (fun _ => Except.error e) resume_text job_description none
      = ⟨"Comparison failed"⟩
    ∧ oa_models.check_request (fun _ => Except.error e) prompt = Except.error e
    ∧ oa_models.extract_reqs (fun _ => Except.error e) prompt = Except.error e
    ∧ ollama_models.extract_reqs (fun _ => Except.error e) prompt = Except.error e :=
  ⟨rfl, rfl, rfl, rfl, rfl, rfl, rfl, rfl, rfl, rfl, rfl, rfl⟩

/-- C4: at a failing backend call, `suggest_edits` of
`src/scoring/oa_models.py` returns a `JDScore` value — not a value of
its declared `ResumeSuggestions` schema type — while the
`src/app/scoring/oa_models.py` variant returns the
`ResumeSuggestions` failure sentinel. -/
theorem c4_suggest_edits_wrong_sentinel_type :
    oa_models.suggest_edits (fun _ => Except.error "timeout") "my resume" "the job" none
      = oa_models.SuggestResult.asJDScore ⟨-1, "Comparison failed"⟩
    ∧ (oa_models.suggest_edits (fun _ => Except.error "timeout") "my resume" "the job"
        none).isSuggestions = false
    ∧ app_oa_models.suggest_edits (fun _ => Except.error "timeout") "my resume" "the job" none
      = ⟨"Comparison failed"⟩ :=
  ⟨rfl, rfl, rfl⟩

/-- C5: when no scored record exceeds the suitability threshold,
`identify_resume_gaps` returns the descriptive no-jobs message and
never invokes the backend `summarize_gaps` capability (the result is
the same for every summarizer function). -/
theorem c5_empty_filter_skips_backend
    (summarize₁ summarize₂ : List String → String) (scores : List JobInfo) (t : ℚ)
    (h : ∀ r ∈ scores, r.score ≤ t) :
    job_posts.identify_resume_gaps summarize₁ scores t
      = "Unable to conduct gap analysis, no jobs scored above " ++ toString t
    ∧ job_posts.identify_resume_gaps summarize₁ scores t
      = job_posts.identify_resume_gaps summarize₂ scores t := by
  have hfil : job_posts.gap_filter scores t = [] := by
    simp only [job_posts.gap_filter, List.filter_eq_nil_iff, decide_eq_true_eq, not_lt]
    exact h
  constructor <;> simp [job_posts.identify_resume_gaps, hfil]

/-- Witness for C5: one record exactly at the default threshold 7 is
not above it, so the message is returned and the two distinct
summarizer functions are interchangeable. -/
theorem c5_empty_filter_skips_backend_witness :
    job_posts.identify_resume_gaps (fun l => String.intercalate "; " l)
        [⟨"the job", "my resume", 7, "borderline"⟩] 7
      = "Unable to conduct gap analysis, no jobs scored above " ++ toString (7 : ℚ)
    ∧ job_posts.identify_resume_gaps (fun l => String.intercalate "; " l)
        [⟨"the job", "my resume", 7, "borderline"⟩] 7
      = job_posts.identify_resume_gaps (fun _ => "other") [⟨"the job", "my resume", 7, "borderline"⟩] 7 :=
  c5_empty_filter_skips_backend (fun l => String.intercalate "; " l) (fun _ => "other")
    [⟨"the job", "my resume", 7, "borderline"⟩] 7
    (by intro r hr; rw [List.mem_singleton] at hr; rw [hr])

/-- C6 counterexample: the local (ollama) backend module does not
define the `summarize_gaps` capability at all (nor `suggest_edits`),
so the two backends do not implement every capability of the set with
equivalent external behavior. -/
theorem c6_counterexample_missing_capabilities :
    backend_contract.ollama_implements backend_contract.Capability.summarize_gaps = false
    ∧ backend_contract.oa_implements backend_contract.Capability.summarize_gaps = true
    ∧ backend_contract.ollama_implements backend_contract.Capability.suggest_edits = false
    ∧ backend_contract.ollama_output_schema backend_contract.Capability.summarize_gaps
      ≠ backend_contract.oa_output_schema backend_contract.Capability.summarize_gaps :=
  ⟨rfl, rfl, rfl, by simp [backend_contract.ollama_output_schema, backend_contract.oa_output_schema]⟩

/-- C6 amended: for every capability the ollama backend does
implement (`validate_prompt`, `extract_intent`, `score`), its input
and output schemas agree with the openai backend; `summarize_gaps`
and `suggest_edits` are absent from the ollama backend. -/
theorem c6_amended_shared_capability_schemas
    (c : backend_contract.Capability)
    (h : backend_contract.ollama_implements c = true) :
    backend_contract.ollama_input_schema c = backend_contract.oa_input_schema c
    ∧ backend_contract.ollama_output_schema c = backend_contract.oa_output_schema c := by
  cases c <;> simp_all [backend_contract.ollama_implements,
    backend_contract.ollama_input_schema, backend_contract.oa_input_schema,
    backend_contract.ollama_output_schema, backend_contract.oa_output_schema]

/-- Witness for C6 amended: the score capability is implemented by
both backends with matching schemas. -/
theorem c6_amended_shared_capability_schemas_witness :
    backend_contract.ollama_implements backend_contract.Capability.score = true
    ∧ (backend_contract.ollama_input_schema backend_contract.Capability.score
        = backend_contract.oa_input_schema backend_contract.Capability.score
      ∧ backend_contract.ollama_output_schema backend_contract.Capability.score
        = backend_contract.oa_output_schema backend_contract.Capability.score) :=
  ⟨rfl, c6_amended_shared_capability_schemas backend_contract.Capability.score rfl⟩

/-- C7: for each of the five known tailoring levels and raw fit
percentages in [0,100], `calculate_overall_fit_and_tailoring_score`
is monotonically non-decreasing in the raw percentage and its result
lies in [0,100]; the strict `src/scoring` variant agrees with the
lenient `src/app` variant on this domain; and the two pinned values
hold: 98 with Exceptional clamps to 100 and 0 with Generic clamps
to 0. -/
theorem c7_overall_score_monotone_clamped
    (tailoring_level : String)
    (hlvl : tailoring_level ∈ ["Exceptional", "Very Well", "Well", "Moderate", "Generic"])
    (r₁ r₂ : ℚ) (h₁0 : 0 ≤ r₁) (h₁1 : r₁ ≤ 100) (h₂0 : 0 ≤ r₂) (h₂1 : r₂ ≤ 100)
    (h₁₂ : r₁ ≤ r₂) :
    app_success_prediction.calculate_overall_fit_and_tailoring_score r₁ tailoring_level
      ≤ app_success_prediction.calculate_overall_fit_and_tailoring_score r₂ tailoring_level
    ∧ 0 ≤ app_success_prediction.calculate_overall_fit_and_tailoring_score r₁ tailoring_level
    ∧ app_success_prediction.calculate_overall_fit_and_tailoring_score r₁ tailoring_level ≤ 100
    ∧ scoring_success_prediction.calculate_overall_fit_and_tailoring_score r₁ tailoring_level
      = Except.ok (app_success_prediction.calculate_overall_fit_and_tailoring_score r₁ tailoring_level)
    ∧ app_success_prediction.calculate_overall_fit_and_tailoring_score 98 "Exceptional" = 100
    ∧ app_success_prediction.calculate_overall_fit_and_tailoring_score 0 "Generic" = 0 := by
  obtain ⟨b, hb1, hb2⟩ :
      ∃ b, scoring_success_prediction.tailoring_boost_points tailoring_level = some b
        ∧ app_success_prediction.tailoring_boost_points tailoring_level = some b := by
    fin_cases hlvl <;> exact ⟨_, rfl, rfl⟩
  have hexc : app_success_prediction.tailoring_boost_points "Exceptional" = some 10 := rfl
  have hgen : app_success_prediction.tailoring_boost_points "Generic" = some (-5) := rfl
  refine ⟨?_, ?_, ?_, ?_, ?_, ?_⟩
  · unfold app_success_prediction.calculate_overall_fit_and_tailoring_score
    exact max_le_max le_rfl (min_le_min (add_le_add_right h₁₂ _) le_rfl)
  · unfold app_success_prediction.calculate_overall_fit_and_tailoring_score
    exact le_max_left 0 _
  · unfold app_success_prediction.calculate_overall_fit_and_tailoring_score
    exact max_le (by norm_num) (min_le_right _ _)
  · unfold scoring_success_prediction.calculate_overall_fit_and_tailoring_score
    rw [if_neg (not_not_intro ⟨h₁0, h₁1⟩), hb1]
    unfold app_success_prediction.calculate_overall_fit_and_tailoring_score
    rw [hb2]
    rfl
  · norm_num [app_success_prediction.calculate_overall_fit_and_tailoring_score, hexc]
  · norm_num [app_success_prediction.calculate_overall_fit_and_tailoring_score, hgen]

/-- Witness for C7: the Well level at raw percentages 20 ≤ 30. -/
theorem c7_overall_score_monotone_clamped_witness :
    app_success_prediction.calculate_overall_fit_and_tailoring_score 20 "Well"
      ≤ app_success_prediction.calculate_overall_fit_and_tailoring_score 30 "Well"
    ∧ 0 ≤ app_success_prediction.calculate_overall_fit_and_tailoring_score 20 "Well" :=
  ⟨(c7_overall_score_monotone_clamped "Well" (by decide) 20 30 (by norm_num) (by norm_num)
      (by norm_num) (by norm_num) (by norm_num)).1,
   (c7_overall_score_monotone_clamped "Well" (by decide) 20 30 (by norm_num) (by norm_num)
      (by norm_num) (by norm_num) (by norm_num)).2.1⟩

/-- C8: the `src/app/scoring/success_prediction.py` time-decay step
function takes the claimed values at every claimed boundary, but the
`src/scoring/success_prediction.py` variant
`calculate_time_decay_factor` returns 1 for every input — at 200 days
it returns 1 instead of the 0.1 its own docstring (and the claim)
require. -/
theorem c8_time_decay_boundaries :
    app_success_prediction.calculate_time_decay 14 = 1
    ∧ app_success_prediction.calculate_time_decay 15 = 8/10
    ∧ app_success_prediction.calculate_time_decay 28 = 8/10
    ∧ app_success_prediction.calculate_time_decay 29 = 5/10
    ∧ app_success_prediction.calculate_time_decay 56 = 5/10
    ∧ app_success_prediction.calculate_time_decay 57 = 2/10
    ∧ app_success_prediction.calculate_time_decay 84 = 2/10
    ∧ app_success_prediction.calculate_time_decay 85 = 1/10
    ∧ app_success_prediction.calculate_time_decay 200 = 1/10
    ∧ scoring_success_prediction.calculate_time_decay_factor 200 = 1
    ∧ scoring_success_prediction.calculate_time_decay_factor 200 ≠ 1/10 := by
  norm_num [app_success_prediction.calculate_time_decay,
    scoring_success_prediction.calculate_time_decay_factor]

/-- C9: for the rationale "ab", the user prompt that `summarize_gaps`
in `src/scoring/oa_models.py` submits separates every single
character of the string "Rationale: ab" with the `\n--\n` separator
(a Python string join iterates characters), so no whole rationale is
kept intact between separators; the request is made at temperature 0. -/
theorem c9_gap_prompt_character_join :
    oa_models.summarize_gaps_user_prompt "ab"
      = "Analyze the following rationale to identify missing skills or experiences:\nR\n--\na\n--\nt\n--\ni\n--\no\n--\nn\n--\na\n--\nl\n--\ne\n--\n:\n--\n \n--\na\n--\nb\n--\n\nList the identified gaps:"
    ∧ (oa_models.summarize_gaps_request "ab").temperature = 0 :=
  ⟨rfl, rfl⟩

/-- C10 counterexample: at threshold -2, a record carrying the
failure sentinel score -1 passes the strictly-greater filter and its
explanation is submitted to gap analysis, so the sentinel is not
excluded for every threshold. -/
theorem c10_counterexample_sentinel_passes_low_threshold :
    job_posts.gap_filter [⟨"the job", "my resume", -1, "Comparison failed"⟩] (-2)
      = [⟨"the job", "my resume", -1, "Comparison failed"⟩]
    ∧ job_posts.identify_resume_gaps (fun l => String.intercalate "; " l)
        [⟨"the job", "my resume", -1, "Comparison failed"⟩] (-2)
      = "Comparison failed" :=
  ⟨rfl, rfl⟩

/-- C10 amended: the gap-analysis filter keeps exactly the records
whose score is strictly greater than the threshold; a record whose
score equals the threshold is excluded; and a record carrying the
failure sentinel score -1 is excluded whenever the threshold is at
least -1 (in particular at the default threshold 7). -/
theorem c10_amended_strict_filter
    (scores : List JobInfo) (t : ℚ) (r : JobInfo) :
    (r ∈ job_posts.gap_filter scores t ↔ r ∈ scores ∧ t < r.score)
    ∧ (r.score = t → r ∉ job_posts.gap_filter scores t)
    ∧ (r.score = -1 → -1 ≤ t → r ∉ job_posts.gap_filter scores t) := by
  refine ⟨?_, ?_, ?_⟩
  · simp [job_posts.gap_filter, List.mem_filter]
  · intro h hmem
    simp only [job_posts.gap_filter, List.mem_filter, decide_eq_true_eq] at hmem
    rw [h] at hmem
    exact absurd hmem.2 (lt_irrefl t)
  · intro h ht hmem
    simp only [job_posts.gap_filter, List.mem_filter, decide_eq_true_eq] at hmem
    rw [h] at hmem
    exact absurd hmem.2 (not_lt.mpr ht)

/-- Witness for C10 amended: a sentinel-scored record is excluded at
the default threshold 7. -/
theorem c10_amended_strict_filter_witness :
    (⟨"the job", "my resume", -1, "Comparison failed"⟩ : JobInfo)
      ∉ job_posts.gap_filter [⟨"the job", "my resume", -1, "Comparison failed"⟩] 7 :=
  (c10_amended_strict_filter [⟨"the job", "my resume", -1, "Comparison failed"⟩] 7
    ⟨"the job", "my resume", -1, "Comparison failed"⟩).2.2 rfl (by norm_num)
